import Mathlib

/-!
Verification development for the asynchronous order execution engine
(`order-engine`). The definitions below are shallow embeddings of the
TypeScript sources: request-body validation (`src/schemas`), the admission
pipeline (`src/routes/orders.ts`, `src/middleware`), the order repository
(`src/models/order.ts`), the queue worker (`src/lib/queue/consumer.ts`,
`src/lib/queue/producer.ts`), the DEX router (`src/lib/dex`), and the
WebSocket subscription service (`src/services/webSocketService.ts`).
Decimal.js arithmetic on decimal strings is modeled with exact rationals;
Redis state is modeled as explicit functional state.
-/

/-! ## Order lifecycle statuses (src/types/index.ts, OrderStatus) -/

inductive OrderStatus where
  | pending
  | routing
  | building
  | submitted
  | confirmed
  | failed
deriving DecidableEq, Repr

/-- Edges of the lifecycle DAG of spec section 4.3: the linear path
pending → routing → building → submitted → confirmed, with `failed`
reachable from every non-terminal state. -/
def validTransition : OrderStatus → OrderStatus → Bool
  | .pending, .routing => true
  | .routing, .building => true
  | .building, .submitted => true
  | .submitted, .confirmed => true
  | .pending, .failed => true
  | .routing, .failed => true
  | .building, .failed => true
  | .submitted, .failed => true
  | _, _ => false

/-! ## Request-body validation (src/schemas, executeOrderSchema)

The zod schema checks, in order: `type` is the enum value `market`;
`tokenIn` and `tokenOut` are strings of length between 1 and 64;
`amount` matches the regex `\d+\.?\d*` and `parseFloat(amount) > 0`;
`slippage` matches the regex `0?\.\d+ | 0` and its value lies in
[0, 0.5]. There is no check that `tokenIn` differs from `tokenOut`. -/

/-- Digits of a decimal string interpreted as a natural number. -/
def natOfDigits (cs : List Char) : Nat :=
  cs.foldl (fun a c => 10 * a + (c.toNat - '0'.toNat)) 0

/-- Value of a fractional digit block, e.g. `[5]` for `.5` is 1/2. -/
def fracOfDigits (cs : List Char) : ℚ :=
  (natOfDigits cs : ℚ) / (10 ^ cs.length)

/-- Recognizer for the amount regex `^\d+\.?\d*$`. -/
def matchAmount (s : String) : Bool :=
  match s.data.span Char.isDigit with
  | ([], _) => false
  | (_ :: _, []) => true
  | (_ :: _, '.' :: t) => t.all Char.isDigit
  | (_ :: _, _ :: _) => false

/-- Recognizer for the slippage regex `^0?\.\d+$|^0$`. -/
def matchSlippage (s : String) : Bool :=
  match s.data with
  | ['0'] => true
  | '.' :: t => !t.isEmpty && t.all Char.isDigit
  | '0' :: '.' :: t => !t.isEmpty && t.all Char.isDigit
  | _ => false

/-- Numeric value that `parseFloat` assigns to a decimal string of the
shapes accepted by the two regexes above (integer part, optional dot,
fractional digits). -/
def parseFloatQ (s : String) : ℚ :=
  match s.data.span Char.isDigit with
  | (ds, '.' :: t) => (natOfDigits ds : ℚ) + fracOfDigits (t.takeWhile Char.isDigit)
  | (ds, _) => (natOfDigits ds : ℚ)

/-- Request body of POST /api/orders/execute as received by validation. -/
structure RequestBody where
  type : String
  tokenIn : String
  tokenOut : String
  amount : String
  slippage : String
deriving DecidableEq, Repr

/-- Embedding of `executeOrderSchema.safeParse` success: the conjunction of
all zod checks. Mirrors src/schemas exactly; in particular the schema has
no refinement comparing `tokenIn` with `tokenOut`. -/
def validateOrderRequest (b : RequestBody) : Bool :=
  (b.type == "market")
  && (1 ≤ b.tokenIn.length && b.tokenIn.length ≤ 64)
  && (1 ≤ b.tokenOut.length && b.tokenOut.length ≤ 64)
  && (matchAmount b.amount && decide (0 < parseFloatQ b.amount))
  && (matchSlippage b.slippage
      && decide (0 ≤ parseFloatQ b.slippage) && decide (parseFloatQ b.slippage ≤ 1/2))

/-! ## Rate-limit arithmetic (src/middleware/rateLimit.ts)

`WINDOW_SIZE = 60` seconds; `windowStart = now - WINDOW_SIZE * 1000`;
on rejection `retryAfter = Math.ceil(WINDOW_SIZE - ((now - windowStart) / 1000))`. -/

def WINDOW_SIZE : ℕ := 60

/-- The `windowStart` value computed by the rate limiter (milliseconds). -/
def windowStart (now : ℤ) : ℤ := now - (WINDOW_SIZE : ℤ) * 1000

/-- The `retryAfter` value sent in the Retry-After header and in the
error details of a 429 response. -/
def retryAfterMw (now : ℤ) : ℤ :=
  ⌈(WINDOW_SIZE : ℚ) - (((now - windowStart now : ℤ) : ℚ) / 1000)⌉

/-! ## DEX router (src/lib/dex/mockDexRouter.ts)

Prices, fees and slippages are decimal strings manipulated with Decimal.js
in the source; they are embedded as exact rationals. -/

inductive DexProvider where
  | raydium
  | meteora
deriving DecidableEq, Repr

structure DexQuote where
  price : ℚ
  fee : ℚ
deriving DecidableEq, Repr

structure SwapResult where
  txHash : String
  executedPrice : ℚ
deriving DecidableEq, Repr

/-- Net-of-fee price `price * (1 - fee)` used by `selectBestDex`. -/
def effectivePrice (q : DexQuote) : ℚ := q.price * (1 - q.fee)

/-- Embedding of `MockDexRouter.selectBestDex`: picks Raydium when its
effective price is greater than or equal to Meteora's. -/
def selectBestDex (raydium meteora : DexQuote) : DexProvider :=
  if effectivePrice meteora ≤ effectivePrice raydium then .raydium else .meteora

/-- Embedding of `MockDexRouter.checkSlippage`: actual slippage is
`|expected - executed| / expected`; the check passes when it is at most
the client's tolerance. Returns (passed, actualSlippage). -/
def checkSlippage (expectedPrice executedPrice slippage : ℚ) : Bool × ℚ :=
  let actual := |expectedPrice - executedPrice| / expectedPrice
  (decide (actual ≤ slippage), actual)

/-! ## Error messages thrown inside the worker

The worker throws plain `Error` objects; the one slippage-specific message
is the template `Slippage exceeded: actual > max` built in
consumer.ts `processOrder`. Messages are embedded structurally so that
"mentions slippage" is decidable. -/

inductive ErrMsg where
  | venue (msg : String)
  | slippageExceeded (actual maxSlippage : ℚ)
deriving DecidableEq, Repr

/-- Whether a failure message is the `Slippage exceeded: ...` template. -/
def ErrMsg.mentionsSlippage : ErrMsg → Bool
  | .slippageExceeded _ _ => true
  | .venue _ => false

/-! ## Order repository (src/models/order.ts)

Rows of the `orders` table. Each repository function is a transcription of
one SQL statement; note that `updateOrderStatus` updates
`SET status = $2, logs = logs || $3 WHERE id = $1` with no condition on
the current status, and that only `updateOrderConfirmed` writes the
`tx_hash` column (`updateOrderStatus` merely places a txHash inside the
appended log entry). -/

structure OrderLog where
  stage : OrderStatus
  raydium : Option ℚ
  meteora : Option ℚ
  selected : Option DexProvider
  txHash : Option String
  executedPrice : Option ℚ
  reason : Option ErrMsg
  attempt : Option ℕ
  maxAttempts : Option ℕ
deriving DecidableEq, Repr

/-- Log entry `{stage, timestamp, ...logEntry}` appended by
`updateOrderStatus`; the only extra field the callers pass is `txHash`. -/
def OrderLog.basic (stage : OrderStatus) (txHash : Option String) : OrderLog :=
  ⟨stage, none, none, none, txHash, none, none, none, none⟩

/-- Log entry appended by `updateOrderRouting`. -/
def OrderLog.routingEntry (raydium meteora : ℚ) (selected : DexProvider) : OrderLog :=
  ⟨.routing, some raydium, some meteora, some selected, none, none, none, none, none⟩

/-- Log entry appended by `updateOrderConfirmed`. -/
def OrderLog.confirmedEntry (txHash : String) (executedPrice : ℚ) : OrderLog :=
  ⟨.confirmed, none, none, none, some txHash, some executedPrice, none, none, none⟩

/-- Log entry appended by `updateOrderFailed`. -/
def OrderLog.failedEntry (reason : ErrMsg) (attempt maxAttempts : ℕ) : OrderLog :=
  ⟨.failed, none, none, none, none, none, some reason, some attempt, some maxAttempts⟩

structure OrderRow where
  id : String
  status : OrderStatus
  tokenIn : String
  tokenOut : String
  amountIn : ℚ
  slippage : ℚ
  amountOut : Option ℚ
  dexUsed : Option DexProvider
  txHash : Option String
  failureReason : Option ErrMsg
  raydiumQuote : Option ℚ
  meteoraQuote : Option ℚ
  logs : List OrderLog
deriving DecidableEq, Repr

/-- Order request as carried in the job payload, with the decimal strings
`amount` and `slippage` taken at their numeric values. -/
structure WorkerRequest where
  tokenIn : String
  tokenOut : String
  amount : ℚ
  slippage : ℚ
deriving DecidableEq, Repr

/-- One SQL `UPDATE ... WHERE id = $1 RETURNING *` against the orders
table: applies `f` to the row whose primary key matches and returns the
updated table together with the returned row. -/
def updateWhereId (db : List OrderRow) (id : String) (f : OrderRow → OrderRow) :
    List OrderRow × Option OrderRow :=
  match db with
  | [] => ([], none)
  | r :: rest =>
    if r.id = id then (f r :: rest, some (f r))
    else
      let p := updateWhereId rest id f
      (r :: p.1, p.2)

/-- Embedding of `createOrder`: INSERT of a fresh `pending` row with the
initial log entry. -/
def createOrder (db : List OrderRow) (id : String) (req : WorkerRequest) :
    List OrderRow × OrderRow :=
  let row : OrderRow :=
    ⟨id, .pending, req.tokenIn, req.tokenOut, req.amount, req.slippage,
      none, none, none, none, none, none, [OrderLog.basic .pending none]⟩
  (db ++ [row], row)

/-- Embedding of `updateOrderStatus`: sets `status` and appends a log
entry, conditional only on the id — the current status is not consulted. -/
def updateOrderStatus (db : List OrderRow) (id : String) (status : OrderStatus)
    (logTxHash : Option String) : List OrderRow × Option OrderRow :=
  updateWhereId db id fun r =>
    { r with status := status, logs := r.logs ++ [OrderLog.basic status logTxHash] }

/-- Embedding of `updateOrderRouting`: sets status to `routing`, records
both quotes and the selected DEX, appends a log entry. -/
def updateOrderRouting (db : List OrderRow) (id : String)
    (raydiumQuote meteoraQuote : ℚ) (selectedDex : DexProvider) :
    List OrderRow × Option OrderRow :=
  updateWhereId db id fun r =>
    { r with status := .routing, raydiumQuote := some raydiumQuote,
             meteoraQuote := some meteoraQuote, dexUsed := some selectedDex,
             logs := r.logs ++ [OrderLog.routingEntry raydiumQuote meteoraQuote selectedDex] }

/-- Embedding of `updateOrderConfirmed`: the only statement that writes
the `tx_hash` column. -/
def updateOrderConfirmed (db : List OrderRow) (id : String) (txHash : String)
    (executedPrice amountOut : ℚ) : List OrderRow × Option OrderRow :=
  updateWhereId db id fun r =>
    { r with status := .confirmed, txHash := some txHash, amountOut := some amountOut,
             logs := r.logs ++ [OrderLog.confirmedEntry txHash executedPrice] }

/-- Embedding of `updateOrderFailed`: sets status `failed` and the
`failure_reason` column. -/
def updateOrderFailed (db : List OrderRow) (id : String) (reason : ErrMsg)
    (attempt maxAttempts : ℕ) : List OrderRow × Option OrderRow :=
  updateWhereId db id fun r =>
    { r with status := .failed, failureReason := some reason,
             logs := r.logs ++ [OrderLog.failedEntry reason attempt maxAttempts] }

/-- Embedding of `getOrderById` (SELECT by primary key). -/
def getOrderById (db : List OrderRow) (id : String) : Option OrderRow :=
  db.find? (fun r => r.id == id)

/-! ## Worker (src/lib/queue/consumer.ts, processOrder)

`publishStatus` messages are embedded as `BusEvent` values; the Redis
PubSub channel per order is implicit (all events below concern the one
order being processed). The venue simulators are nondeterministic in the
source; an attempt's venue behaviour is therefore an explicit environment:
each venue call either returns a value or throws with a message. -/

structure BusEvent where
  status : OrderStatus
  dex : Option DexProvider
  raydiumQuote : Option ℚ
  meteoraQuote : Option ℚ
  txHash : Option String
  executedPrice : Option ℚ
  amountOut : Option ℚ
  error : Option ErrMsg
  failureReason : Option ErrMsg
  attempt : Option ℕ
  maxAttempts : Option ℕ
  nextRetryDelayMs : Option ℕ
deriving DecidableEq, Repr

/-- Event `publishStatus(orderId, status)` with no extra data. -/
def BusEvent.plain (status : OrderStatus) : BusEvent :=
  ⟨status, none, none, none, none, none, none, none, none, none, none, none⟩

/-- Event published after the routing decision, carrying dex and quotes. -/
def BusEvent.routingDecision (dex : DexProvider) (raydiumQuote meteoraQuote : ℚ) : BusEvent :=
  ⟨.routing, some dex, some raydiumQuote, some meteoraQuote, none, none, none, none, none, none, none, none⟩

/-- Event published at the BUILDING step, carrying the selected dex. -/
def BusEvent.buildingEv (dex : DexProvider) : BusEvent :=
  ⟨.building, some dex, none, none, none, none, none, none, none, none, none, none⟩

/-- Event published at the SUBMITTED step, carrying the txHash. -/
def BusEvent.submittedEv (txHash : String) : BusEvent :=
  ⟨.submitted, none, none, none, some txHash, none, none, none, none, none, none, none⟩

/-- Event published at the CONFIRMED step. -/
def BusEvent.confirmedEv (txHash : String) (executedPrice amountOut : ℚ) : BusEvent :=
  ⟨.confirmed, none, none, none, some txHash, some executedPrice, some amountOut, none, none, none, none, none⟩

/-- Event published when the final attempt fails. -/
def BusEvent.failedEv (failureReason : ErrMsg) (attempt maxAttempts : ℕ) : BusEvent :=
  ⟨.failed, none, none, none, none, none, none, none, some failureReason, some attempt, some maxAttempts, none⟩

/-- Event published before a retry: status PENDING with the error, the
attempt counters, and `nextRetryAt = now + 2^(attemptsMade+1) * 1000` ms
(embedded as the delay in milliseconds from now). -/
def BusEvent.retryEv (error : ErrMsg) (attempt maxAttempts delayMs : ℕ) : BusEvent :=
  ⟨.pending, none, none, none, none, none, none, some error, none, some attempt, some maxAttempts, some delayMs⟩

/-- Venue behaviour for one processing attempt: the outcome of
`dexRouter.getQuotes` (raydium and meteora quotes) and of
`dexRouter.executeSwap`. `Except.error` is a thrown `Error` message. -/
structure WorkerEnv where
  quotes : Except String (DexQuote × DexQuote)
  swap : Except String SwapResult
deriving Repr

/-- Result of one `processOrder` invocation: the database after the
attempt, the PubSub events published, the rows returned by the repository
writes (the persisted row snapshots, in write order), and the error the
attempt throws, if any. -/
structure AttemptResult where
  db : List OrderRow
  events : List BusEvent
  snapshots : List OrderRow
  error : Option ErrMsg
deriving Repr

/-- The try-block of consumer.ts `processOrder` (steps 1 through 8):
routing update and publish, quotes, best-DEX selection, routing-decision
update, building update, swap execution, slippage check, submitted update
(txHash only inside the log entry) and confirmed update. -/
def attemptBody (req : WorkerRequest) (env : WorkerEnv) (db0 : List OrderRow)
    (orderId : String) : AttemptResult :=
  let p1 := updateOrderStatus db0 orderId .routing none
  let ev1 := [BusEvent.plain .routing]
  match env.quotes with
  | .error e => ⟨p1.1, ev1, p1.2.toList, some (.venue e)⟩
  | .ok (ray, met) =>
    let sel := selectBestDex ray met
    let p2 := updateOrderRouting p1.1 orderId ray.price met.price sel
    let ev2 := ev1 ++ [BusEvent.routingDecision sel ray.price met.price]
    let p3 := updateOrderStatus p2.1 orderId .building none
    let ev3 := ev2 ++ [BusEvent.buildingEv sel]
    let snaps3 := p1.2.toList ++ p2.2.toList ++ p3.2.toList
    match env.swap with
    | .error e => ⟨p3.1, ev3, snaps3, some (.venue e)⟩
    | .ok sw =>
      let expectedPrice := if sel = .raydium then ray.price else met.price
      let slip := checkSlippage expectedPrice sw.executedPrice req.slippage
      if slip.1 then
        let p4 := updateOrderStatus p3.1 orderId .submitted (some sw.txHash)
        let ev4 := ev3 ++ [BusEvent.submittedEv sw.txHash]
        let amountOut := req.amount * sw.executedPrice
        let p5 := updateOrderConfirmed p4.1 orderId sw.txHash sw.executedPrice amountOut
        ⟨p5.1, ev4 ++ [BusEvent.confirmedEv sw.txHash sw.executedPrice amountOut],
          snaps3 ++ p4.2.toList ++ p5.2.toList, none⟩
      else
        ⟨p3.1, ev3, snaps3, some (.slippageExceeded slip.2 req.slippage)⟩

/-- Embedding of consumer.ts `processOrder` including its catch clause:
on an error, if `attemptsMade + 1 >= MAX_RETRIES` the order is persisted
`failed` and a FAILED event is published; otherwise a retry event is
published with `nextRetryAt` of `2^(attemptsMade+1)` seconds. The error is
re-thrown in both cases (`error = some e`) to drive the BullMQ retry. -/
def processOrder (req : WorkerRequest) (env : WorkerEnv) (db0 : List OrderRow)
    (orderId : String) (attemptsMade maxRetries : ℕ) : AttemptResult :=
  let a := attemptBody req env db0 orderId
  match a.error with
  | none => a
  | some e =>
    if maxRetries ≤ attemptsMade + 1 then
      let pf := updateOrderFailed a.db orderId e (attemptsMade + 1) maxRetries
      ⟨pf.1, a.events ++ [BusEvent.failedEv e (attemptsMade + 1) maxRetries],
        a.snapshots ++ pf.2.toList, some e⟩
    else
      ⟨a.db, a.events ++ [BusEvent.retryEv e (attemptsMade + 1) maxRetries (2 ^ (attemptsMade + 1) * 1000)],
        a.snapshots, some e⟩

/-- Outcome of a whole job: final database, all events, all persisted row
snapshots, the number of processing attempts made, the backoff delays (in
milliseconds) waited between consecutive attempts, and the error of the
last attempt when the job ends in failure. -/
structure JobResult where
  db : List OrderRow
  events : List BusEvent
  snapshots : List OrderRow
  attemptsUsed : ℕ
  delays : List ℕ
  finalError : Option ErrMsg
deriving Repr

/-- Retry loop of the BullMQ queue for one job (producer.ts configures
`attempts = MAX_RETRIES` with exponential backoff, base delay 2000 ms):
re-runs `processOrder` while it throws and attempts remain, recording the
backoff delay before each retry. The recorded delay is the one the worker
itself computes and publishes, `2^(attemptsMade+1) * 1000` ms, which
coincides with the producer's exponential backoff `2000 * 2^(k-1)` for the
k-th retry. Structural recursion on the remaining-attempts fuel. -/
def runJobAux (req : WorkerRequest) (env : WorkerEnv) (orderId : String)
    (maxRetries : ℕ) : ℕ → ℕ → List OrderRow → List BusEvent → List OrderRow →
    List ℕ → JobResult
  | 0, attemptsMade, db, evs, snaps, ds => ⟨db, evs, snaps, attemptsMade, ds, none⟩
  | fuel + 1, attemptsMade, db, evs, snaps, ds =>
    let a := processOrder req env db orderId attemptsMade maxRetries
    match a.error with
    | none => ⟨a.db, evs ++ a.events, snaps ++ a.snapshots, attemptsMade + 1, ds, none⟩
    | some e =>
      if maxRetries ≤ attemptsMade + 1 then
        ⟨a.db, evs ++ a.events, snaps ++ a.snapshots, attemptsMade + 1, ds, some e⟩
      else
        runJobAux req env orderId maxRetries fuel (attemptsMade + 1) a.db
          (evs ++ a.events) (snaps ++ a.snapshots)
          (ds ++ [2 ^ (attemptsMade + 1) * 1000])

/-- Runs a job to completion: at most `maxRetries` attempts, starting at
`attemptsMade = 0`. -/
def runJob (req : WorkerRequest) (env : WorkerEnv) (db : List OrderRow)
    (orderId : String) (maxRetries : ℕ) : JobResult :=
  runJobAux req env orderId maxRetries maxRetries 0 db [] [] []

/-- The error an attempt with venue behaviour `env` throws; it depends
only on the request and the environment, never on the database. -/
def attemptError (req : WorkerRequest) (env : WorkerEnv) : Option ErrMsg :=
  (attemptBody req env [] "").error

/-! ## Admission pipeline (src/routes/orders.ts, src/middleware,
src/controllers)

Fastify runs the preHandler chain `[rateLimitMiddleware,
backpressureMiddleware, idempotencyMiddleware]` in that order; a
middleware that sends a reply short-circuits the rest. Body validation
happens afterwards, inside `OrderController.executeOrder`, which then
calls `orderService.submitOrder` (create row, enqueue job) and finally
`storeIdempotencyResult`. The Redis state owned by the pipeline for one
client IP and one idempotency key space is embedded as `AdmState`. -/

structure IdemData where
  orderId : ℕ
  bodyHash : String
deriving DecidableEq, Repr

/-- Admission-relevant state: the sliding-window entry count for the
client IP (after the window trim), the idempotency records (all within
TTL), the persisted order rows and enqueued jobs (by order id), and the
next fresh order id. -/
structure AdmState where
  bucket : ℕ
  store : List (String × IdemData)
  orders : List ℕ
  jobs : List ℕ
  nextId : ℕ
deriving DecidableEq, Repr

inductive AdmResponse where
  | okOrder (orderId : ℕ)
  | conflict
  | invalidBody
  | rateLimited (retryAfter : ℤ)
  | serviceUnavailable
deriving DecidableEq, Repr

/-- Redis GET of an idempotency record. -/
def lookupIdem (store : List (String × IdemData)) (k : String) : Option IdemData :=
  (store.find? (fun p => p.1 == k)).map (fun p => p.2)

/-- One POST /api/orders/execute request against the pipeline, with the
infrastructure healthy. The rate limiter records the request (ZADD) in the
same MULTI that counts the window, so the bucket grows by one whatever the
outcome; the count it compares against excludes the current request. Then
backpressure, then the idempotency middleware, then (only in the
controller) body validation, then creation: insert row, enqueue job,
store the idempotency record. -/
def executePipeline (limit : ℕ) (overloaded : Bool) (now : ℤ) (valid : Bool)
    (key : Option String) (bodyHash : String) (s : AdmState) :
    AdmState × AdmResponse :=
  let count := s.bucket
  let s1 : AdmState := { s with bucket := s.bucket + 1 }
  if limit ≤ count then (s1, .rateLimited (retryAfterMw now))
  else if overloaded then (s1, .serviceUnavailable)
  else
    match key, key.bind (lookupIdem s1.store) with
    | some _, some d =>
      if d.bodyHash == bodyHash then (s1, .okOrder d.orderId) else (s1, .conflict)
    | _, _ =>
      if valid then
        let oid := s1.nextId
        let store' := match key with
          | some k => (k, ⟨oid, bodyHash⟩) :: s1.store
          | none => s1.store
        ({ s1 with store := store', orders := s1.orders ++ [oid],
                   jobs := s1.jobs ++ [oid], nextId := oid + 1 },
         .okOrder oid)
      else (s1, .invalidBody)

/-- Sequential resubmission of the same request (same idempotency key and
body hash, valid body, queue not overloaded) n times. Returns the final
state and the list of responses. -/
def submitN (limit : ℕ) (now : ℤ) (k : String) (h : String) :
    ℕ → AdmState → AdmState × List AdmResponse
  | 0, s => (s, [])
  | n + 1, s =>
    let p := executePipeline limit false now true (some k) h s
    let q := submitN limit now k h n p.1
    (q.1, p.2 :: q.2)

/-! ## Middleware fail-open behaviour

Each of the three middlewares wraps its Redis interaction in a
try/catch whose catch clause only logs: on an infrastructure error the
request proceeds. The Redis interaction result is passed in explicitly as
an `Except`. -/

inductive MwDecision where
  | proceed
  | reject (resp : AdmResponse)
deriving DecidableEq, Repr

/-- Embedding of `rateLimitMiddleware`: `redisCount` is the outcome of the
MULTI (trim, count, add, expire); a thrown error is caught, logged and the
request proceeds. -/
def rateLimitMw (now : ℤ) (limit : ℕ) (redisCount : Except String ℕ) : MwDecision :=
  match redisCount with
  | .error _ => .proceed
  | .ok count => if limit ≤ count then .reject (.rateLimited (retryAfterMw now)) else .proceed

/-- Embedding of `backpressureMiddleware`: `overloadedResult` is the
outcome of `isQueueOverloaded`; a thrown error is caught and the request
proceeds. -/
def backpressureMw (overloadedResult : Except String Bool) : MwDecision :=
  match overloadedResult with
  | .error _ => .proceed
  | .ok true => .reject .serviceUnavailable
  | .ok false => .proceed

/-- Embedding of `idempotencyMiddleware`: without a key the request
proceeds; `redisGet` is the outcome of the Redis GET; a thrown error is
caught and the request proceeds; a record with matching hash replays the
stored orderId; a mismatched hash is a conflict. -/
def idempotencyMw (key : Option String) (bodyHash : String)
    (redisGet : Except String (Option IdemData)) : MwDecision :=
  match key with
  | none => .proceed
  | some _ =>
    match redisGet with
    | .error _ => .proceed
    | .ok none => .proceed
    | .ok (some d) =>
      if d.bodyHash == bodyHash then .reject (.okOrder d.orderId) else .reject .conflict

/-! ## Subscription service (src/services/webSocketService.ts)

`handleConnection` awaits `sendBackfill` (which reads the order row and
sends its `logs`) and only then awaits `subscribeToUpdates` (which
registers the PubSub listener); nothing buffers bus messages published in
between. For one order, the persisted transitions form a sequence; the
backfill carries the first `persistedAtRead` of them (those persisted when
the row was read), and the live tail delivers exactly the messages
published after the listener registration, i.e. all but the first
`publishedBeforeSubscribe` (publishes happen in persist order for the
single-writer worker). -/

def observedStream (transitions : List OrderStatus)
    (persistedAtRead publishedBeforeSubscribe : ℕ) : List OrderStatus :=
  transitions.take persistedAtRead ++ transitions.drop publishedBeforeSubscribe

/-! ## Helper lemmas -/

/-- The rate limiter's retryAfter is identically zero: `windowStart` is
defined as `now - WINDOW_SIZE * 1000`, so the computed difference is the
whole window. -/
lemma retryAfterMw_eq_zero (now : ℤ) : retryAfterMw now = 0 := by
  have h : now - windowStart now = 60000 := by simp [windowStart, WINDOW_SIZE]
  rw [retryAfterMw, h]
  norm_num [WINDOW_SIZE]

/-- The row returned by a keyed UPDATE is the updated current row. -/
lemma updateWhereId_snd (db : List OrderRow) (id : String) (f : OrderRow → OrderRow) :
    (updateWhereId db id f).2 = (getOrderById db id).map f := by
  induction db with
  | nil => simp [updateWhereId, getOrderById]
  | cons r rest ih =>
    by_cases h : r.id = id
    · have hb : (r.id == id) = true := by simp [h]
      simp [updateWhereId, h, getOrderById, List.find?, hb]
    · have hb : (r.id == id) = false := by simp [h]
      simp only [getOrderById] at ih
      simp [updateWhereId, h, getOrderById, List.find?, hb, ih]

/-- After a keyed UPDATE whose row transformation preserves the id, the
row found under that id is the transformed one. -/
lemma getOrderById_updateWhereId (db : List OrderRow) (id : String)
    (f : OrderRow → OrderRow) (hf : ∀ r, (f r).id = r.id) :
    getOrderById (updateWhereId db id f).1 id = (getOrderById db id).map f := by
  induction db with
  | nil => simp [updateWhereId, getOrderById]
  | cons r rest ih =>
    by_cases h : r.id = id
    · have hb : (r.id == id) = true := by simp [h]
      have hb2 : ((f r).id == id) = true := by simp [hf r, h]
      simp [updateWhereId, h, getOrderById, List.find?, hb, hb2]
    · have hb : (r.id == id) = false := by simp [h]
      simp only [getOrderById] at ih
      simp [updateWhereId, h, getOrderById, List.find?, hb, ih]

/-- A keyed UPDATE matching no row leaves the table unchanged and
returns nothing. -/
lemma updateWhereId_not_found (db : List OrderRow) (id : String)
    (f : OrderRow → OrderRow) (h : getOrderById db id = none) :
    updateWhereId db id f = (db, none) := by
  induction db with
  | nil => simp [updateWhereId]
  | cons r rest ih =>
    by_cases hr : r.id = id
    · have hb : (r.id == id) = true := by simp [hr]
      simp [getOrderById, List.find?, hb] at h
    · have hb : (r.id == id) = false := by simp [hr]
      simp only [getOrderById, List.find?, hb] at h
      simp only [updateWhereId, if_neg hr]
      rw [ih h]

/-! ## C10 — the 429 retryAfter value -/

/-- C10: on every 429 rate-limited response the Retry-After value and the
retryAfter detail equal exactly 0, because it is computed as
ceil(WINDOW_SIZE - (now - windowStart)/1000) with
windowStart = now - WINDOW_SIZE*1000. -/
theorem C10_retry_after_zero (now : ℤ) (limit : ℕ) (ov valid : Bool)
    (key : Option String) (bodyHash : String) (s : AdmState)
    (hcount : limit ≤ s.bucket) :
    retryAfterMw now = 0 ∧
    (executePipeline limit ov now valid key bodyHash s).2 =
      .rateLimited 0 := by
  refine ⟨retryAfterMw_eq_zero now, ?_⟩
  simp [executePipeline, if_pos hcount, retryAfterMw_eq_zero]

/-- Witness for C10 at a concrete request. -/
theorem C10_retry_after_zero_witness :
    retryAfterMw 98765 = 0 ∧
    (executePipeline 30 false 98765 true none "h" ⟨30, [], [], [], 0⟩).2 =
      .rateLimited 0 :=
  C10_retry_after_zero 98765 30 false true none "h" ⟨30, [], [], [], 0⟩ (by decide)

/-! ## C9 — admission checks fail open -/

/-- C9: if the Redis operation inside the rate limit check, the
backpressure check or the idempotency lookup throws, the middleware logs
and lets the request proceed; an infrastructure failure never by itself
rejects a request. -/
theorem C9_fail_open :
    (∀ (now : ℤ) (limit : ℕ) (e : String), rateLimitMw now limit (.error e) = .proceed) ∧
    (∀ e : String, backpressureMw (.error e) = .proceed) ∧
    (∀ (key : Option String) (bodyHash e : String),
      idempotencyMw key bodyHash (.error e) = .proceed) := by
  refine ⟨fun _ _ _ => rfl, fun _ => rfl, fun key _ _ => ?_⟩
  cases key <;> rfl

/-! ## C5 — backfill/subscription gap -/

/-- C5 counterexample: with two persisted transitions, a backfill that
read the row after the first transition (persistedAtRead = 1) and a
listener registered after both publishes (publishedBeforeSubscribe = 2),
the client observes only the first transition: the `building` transition,
published between the backfill read and the listener registration, is
lost — nothing buffers it. -/
theorem C5_counterexample :
    observedStream [.routing, .building] 1 2 = [.routing] ∧
    OrderStatus.building ∉ observedStream [.routing, .building] 1 2 := by
  constructor
  · rfl
  · decide

/-- C5 amended: `handleConnection` registers the bus listener only after
the backfill is sent and buffers nothing, so a transition persisted after
the backfill read and published before the listener registration is lost.
The concatenation of backfill.logs and the live events covers every
persisted transition, in order, exactly when every publish missed by the
listener (the first publishedBeforeSubscribe ones) was already persisted
at backfill-read time, i.e. publishedBeforeSubscribe ≤ persistedAtRead. -/
theorem C5_backfill_coverage (transitions : List OrderStatus) (n m : ℕ)
    (hmn : m ≤ n) :
    transitions.Sublist (observedStream transitions n m) := by
  have h1 : transitions.take m |>.Sublist (transitions.take n) := by
    have h2 := List.take_sublist m (transitions.take n)
    rw [List.take_take] at h2
    rwa [Nat.min_eq_left hmn] at h2
  have h3 : (transitions.take m ++ transitions.drop m).Sublist
      (transitions.take n ++ transitions.drop m) :=
    List.Sublist.append h1 (List.Sublist.refl _)
  rw [List.take_append_drop] at h3
  exact h3

/-- Witness for C5 at a concrete trace with no gapped transition. -/
theorem C5_backfill_coverage_witness :
    1 ≤ 2 ∧ List.Sublist [OrderStatus.routing, OrderStatus.building]
      (observedStream [.routing, .building] 2 1) :=
  ⟨by decide, C5_backfill_coverage [.routing, .building] 2 1 (by decide)⟩

/-! ## C7 — request-body validation -/

/-- C7 counterexample: a body whose tokenIn equals tokenOut passes
validation — the schema never compares the two symbols, so such a body is
not rejected with invalid_body. -/
theorem C7_counterexample :
    validateOrderRequest ⟨"market", "SOL", "SOL", "5", "0"⟩ = true ∧
    (RequestBody.mk "market" "SOL" "SOL" "5" "0").tokenIn =
      (RequestBody.mk "market" "SOL" "SOL" "5" "0").tokenOut := by
  refine ⟨?_, rfl⟩
  have h5 : parseFloatQ "5" = 5 := by
    rw [parseFloatQ]
    rw [show "5".data.span Char.isDigit = (['5'], []) from by decide]
    show (natOfDigits ['5'] : ℚ) = 5
    rw [show natOfDigits ['5'] = 5 from by decide]
    norm_num
  have h0 : parseFloatQ "0" = 0 := by
    rw [parseFloatQ]
    rw [show "0".data.span Char.isDigit = (['0'], []) from by decide]
    show (natOfDigits ['0'] : ℚ) = 0
    rw [show natOfDigits ['0'] = 0 from by decide]
    norm_num
  simp only [validateOrderRequest, h5, h0]
  norm_num
  decide

/-- C7 amended: validation accepts a body exactly when the type is
market, the token symbols are non-empty and at most 64 characters, the
amount is a decimal strictly greater than 0 and the slippage is a decimal
in the interval from 0 to 1/2. The schema does not require tokenIn to
differ from tokenOut, so a body with equal tokens is accepted and an
order is created for it. -/
theorem C7_validation_characterization (b : RequestBody) :
    validateOrderRequest b = true ↔
    (b.type = "market" ∧
     (1 ≤ b.tokenIn.length ∧ b.tokenIn.length ≤ 64) ∧
     (1 ≤ b.tokenOut.length ∧ b.tokenOut.length ≤ 64) ∧
     (matchAmount b.amount = true ∧ 0 < parseFloatQ b.amount) ∧
     (matchSlippage b.slippage = true ∧
      0 ≤ parseFloatQ b.slippage ∧ parseFloatQ b.slippage ≤ 1/2)) := by
  simp [validateOrderRequest, Bool.and_eq_true, decide_eq_true_eq, beq_iff_eq, and_assoc]

/-! ## Admission pipeline lemmas -/

/-- A request whose idempotency key has a stored record with matching
body hash is answered from the record; only the rate-limit bucket grows. -/
lemma executePipeline_cached_hit (limit : ℕ) (now : ℤ) (v : Bool) (k h : String)
    (s : AdmState) (d : IdemData) (hb : s.bucket < limit)
    (hl : lookupIdem s.store k = some d) (hh : d.bodyHash = h) :
    executePipeline limit false now v (some k) h s =
      ({ s with bucket := s.bucket + 1 }, .okOrder d.orderId) := by
  have hnb : ¬ limit ≤ s.bucket := by omega
  simp [executePipeline, hnb, hl, hh]

/-- A request whose idempotency key has a stored record with a different
body hash is answered 409; only the rate-limit bucket grows. -/
lemma executePipeline_conflict_hit (limit : ℕ) (now : ℤ) (v : Bool) (k h : String)
    (s : AdmState) (d : IdemData) (hb : s.bucket < limit)
    (hl : lookupIdem s.store k = some d) (hh : d.bodyHash ≠ h) :
    executePipeline limit false now v (some k) h s =
      ({ s with bucket := s.bucket + 1 }, .conflict) := by
  have hnb : ¬ limit ≤ s.bucket := by omega
  simp [executePipeline, hnb, hl, hh]

/-- A valid keyed request with no stored record creates one order and one
job and stores the idempotency record for the new order id. -/
lemma executePipeline_creates (limit : ℕ) (now : ℤ) (k h : String) (s : AdmState)
    (hb : s.bucket < limit) (hl : lookupIdem s.store k = none) :
    executePipeline limit false now true (some k) h s =
      ({ s with bucket := s.bucket + 1,
                store := (k, ⟨s.nextId, h⟩) :: s.store,
                orders := s.orders ++ [s.nextId],
                jobs := s.jobs ++ [s.nextId],
                nextId := s.nextId + 1 }, .okOrder s.nextId) := by
  have hnb : ¬ limit ≤ s.bucket := by omega
  simp [executePipeline, hnb, hl]

/-- Every further submission against a matching stored record replays the
stored order id and changes nothing but the rate-limit bucket. -/
lemma submitN_cached (limit : ℕ) (now : ℤ) (k h : String) (d : IdemData)
    (hh : d.bodyHash = h) :
    ∀ (n : ℕ) (t : AdmState), lookupIdem t.store k = some d →
      t.bucket + n ≤ limit →
      submitN limit now k h n t =
        ({ t with bucket := t.bucket + n }, List.replicate n (.okOrder d.orderId)) := by
  intro n
  induction n with
  | zero => intro t ht hb; simp [submitN]
  | succ n ih =>
    intro t ht hb
    have step := executePipeline_cached_hit limit now true k h t d (by omega) ht hh
    have tail := ih { t with bucket := t.bucket + 1 } ht (by simp; omega)
    simp only [submitN, step, tail]
    rw [show t.bucket + 1 + n = t.bucket + (n + 1) from by omega, List.replicate_succ]

/-! ## C1 — idempotent admission -/

/-- C1: within the record TTL, a keyed request hitting a record with
matching body fingerprint is answered 200 with the stored orderId while
creating no row and enqueueing no job; a hit with a different fingerprint
is answered 409 with no order created; and any number of sequential
submissions of one (key, body) pair yields exactly one order row and one
enqueued job, every response carrying the same orderId. The request is
assumed to pass rate limiting and backpressure, since those middlewares
run first. -/
theorem C1_idempotent_admission :
    (∀ (limit : ℕ) (now : ℤ) (v : Bool) (k h : String) (s : AdmState) (d : IdemData),
      s.bucket < limit → lookupIdem s.store k = some d → d.bodyHash = h →
      executePipeline limit false now v (some k) h s =
        ({ s with bucket := s.bucket + 1 }, .okOrder d.orderId)) ∧
    (∀ (limit : ℕ) (now : ℤ) (v : Bool) (k h : String) (s : AdmState) (d : IdemData),
      s.bucket < limit → lookupIdem s.store k = some d → d.bodyHash ≠ h →
      executePipeline limit false now v (some k) h s =
        ({ s with bucket := s.bucket + 1 }, .conflict)) ∧
    (∀ (limit : ℕ) (now : ℤ) (k h : String) (s : AdmState) (n : ℕ),
      lookupIdem s.store k = none → s.bucket + n < limit →
      (submitN limit now k h (n + 1) s).1.orders = s.orders ++ [s.nextId] ∧
      (submitN limit now k h (n + 1) s).1.jobs = s.jobs ++ [s.nextId] ∧
      (submitN limit now k h (n + 1) s).2 =
        List.replicate (n + 1) (.okOrder s.nextId)) := by
  refine ⟨executePipeline_cached_hit, executePipeline_conflict_hit, ?_⟩
  intro limit now k h s n hl hb
  have step := executePipeline_creates limit now k h s (by omega) hl
  have hhit : lookupIdem ((k, (⟨s.nextId, h⟩ : IdemData)) :: s.store) k =
      some ⟨s.nextId, h⟩ := by
    simp [lookupIdem, List.find?]
  have tail := submitN_cached limit now k h ⟨s.nextId, h⟩ rfl n
    { s with bucket := s.bucket + 1,
             store := (k, ⟨s.nextId, h⟩) :: s.store,
             orders := s.orders ++ [s.nextId],
             jobs := s.jobs ++ [s.nextId],
             nextId := s.nextId + 1 } hhit (by simp; omega)
  simp only [submitN, step, tail]
  simp [List.replicate_succ]

/-- Witness for C1: two replays after a first keyed submission from a
fresh state give one order, one job and three identical responses. -/
theorem C1_idempotent_admission_witness :
    lookupIdem (AdmState.mk 0 [] [] [] 7).store "K" = none ∧
    (0 : ℕ) + 2 < 30 ∧
    (submitN 30 0 "K" "H" 3 ⟨0, [], [], [], 7⟩).1.orders = [] ++ [7] ∧
    (submitN 30 0 "K" "H" 3 ⟨0, [], [], [], 7⟩).1.jobs = [] ++ [7] ∧
    (submitN 30 0 "K" "H" 3 ⟨0, [], [], [], 7⟩).2 =
      List.replicate 3 (.okOrder 7) := by
  refine ⟨rfl, by decide, ?_⟩
  exact C1_idempotent_admission.2.2 30 0 "K" "H" ⟨0, [], [], [], 7⟩ 2 rfl (by decide)

/-! ## C8 — admission pipeline order -/

/-- C8 counterexample: an invalid-body request from an IP at the rate
limit is answered rate_limited, not invalid_body, and it still consumes a
rate-limit slot — the rate limiter runs first and records the request
before validation ever happens. -/
theorem C8_counterexample :
    (executePipeline 30 false 0 false none "h" ⟨30, [], [], [], 0⟩).2 =
      .rateLimited 0 ∧
    (executePipeline 30 false 0 false none "h" ⟨30, [], [], [], 0⟩).2 ≠
      .invalidBody ∧
    (executePipeline 30 false 0 false none "h" ⟨30, [], [], [], 0⟩).1.bucket = 31 := by
  have h := retryAfterMw_eq_zero 0
  refine ⟨?_, ?_, ?_⟩ <;> simp [executePipeline, h]

/-- C8 amended: the admission pipeline runs rate limit, then
backpressure, then idempotency, then (inside the controller) body
validation, each short-circuiting on failure; every request consumes a
rate-limit slot whatever the outcome, and an invalid-body request from an
IP at or over the limit is answered rate_limited. -/
theorem C8_pipeline_order (limit : ℕ) (ov valid : Bool) (now : ℤ)
    (key : Option String) (h : String) (s : AdmState) :
    ((executePipeline limit ov now valid key h s).1.bucket = s.bucket + 1) ∧
    (limit ≤ s.bucket →
      (executePipeline limit ov now valid key h s).2 = .rateLimited 0) ∧
    (s.bucket < limit → ov = true →
      (executePipeline limit ov now valid key h s).2 = .serviceUnavailable) ∧
    (∀ k d, s.bucket < limit → ov = false → key = some k →
      lookupIdem s.store k = some d → d.bodyHash ≠ h →
      (executePipeline limit ov now valid key h s).2 = .conflict) ∧
    (s.bucket < limit → ov = false →
      (key = none ∨ ∃ k, key = some k ∧ lookupIdem s.store k = none) →
      valid = false →
      (executePipeline limit ov now valid key h s).2 = .invalidBody) := by
  have hz := retryAfterMw_eq_zero now
  refine ⟨?_, ?_, ?_, ?_, ?_⟩
  · by_cases hb : limit ≤ s.bucket
    · simp [executePipeline, hb]
    · by_cases hov : ov = true
      · simp [executePipeline, hb, hov]
      · simp only [Bool.not_eq_true] at hov
        subst hov
        rcases key with _ | k
        · by_cases hv : valid = true <;> simp [executePipeline, hb, hv]
        · rcases hl : lookupIdem s.store k with _ | d
          · by_cases hv : valid = true <;> simp [executePipeline, hb, hl, hv]
          · by_cases hh : d.bodyHash = h <;> simp [executePipeline, hb, hl, hh]
  · intro hb
    simp [executePipeline, hb, hz]
  · intro hb hov
    subst hov
    simp [executePipeline, Nat.not_le.mpr hb]
  · intro k d hb hov hk hl hh
    subst hov
    subst hk
    simp [executePipeline, Nat.not_le.mpr hb, hl, hh]
  · intro hb hov hkey hv
    subst hov
    subst hv
    rcases hkey with hk | ⟨k, hk, hl⟩
    · subst hk
      simp [executePipeline, Nat.not_le.mpr hb]
    · subst hk
      simp [executePipeline, Nat.not_le.mpr hb, hl]

/-- Witness for C8 at concrete requests exercising each stage. -/
theorem C8_pipeline_order_witness :
    (executePipeline 30 false 0 true none "h" ⟨0, [], [], [], 0⟩).1.bucket = 0 + 1 ∧
    (executePipeline 0 false 0 true none "h" ⟨0, [], [], [], 0⟩).2 = .rateLimited 0 ∧
    (executePipeline 30 true 0 true none "h" ⟨0, [], [], [], 0⟩).2 = .serviceUnavailable ∧
    (executePipeline 30 false 0 true (some "K") "h"
        ⟨0, [("K", ⟨5, "other"⟩)], [], [], 0⟩).2 = .conflict ∧
    (executePipeline 30 false 0 false none "h" ⟨0, [], [], [], 0⟩).2 = .invalidBody :=
  ⟨(C8_pipeline_order 30 false true 0 none "h" ⟨0, [], [], [], 0⟩).1,
   (C8_pipeline_order 0 false true 0 none "h" ⟨0, [], [], [], 0⟩).2.1 (by decide),
   (C8_pipeline_order 30 true true 0 none "h" ⟨0, [], [], [], 0⟩).2.2.1 (by decide) rfl,
   (C8_pipeline_order 30 false true 0 (some "K") "h"
      ⟨0, [("K", ⟨5, "other"⟩)], [], [], 0⟩).2.2.2.1 "K" ⟨5, "other"⟩ (by decide) rfl rfl
      rfl (by decide),
   (C8_pipeline_order 30 false false 0 none "h" ⟨0, [], [], [], 0⟩).2.2.2.2 (by decide)
      rfl (Or.inl rfl) rfl⟩

/-! ## Repository lemmas specialized to each SQL statement -/

/-- Row returned by `updateOrderStatus`. -/
lemma updateOrderStatus_snd (db : List OrderRow) (id : String) (st : OrderStatus)
    (tx : Option String) :
    (updateOrderStatus db id st tx).2 = (getOrderById db id).map
      (fun r => { r with status := st, logs := r.logs ++ [OrderLog.basic st tx] }) :=
  updateWhereId_snd db id _

/-- Row found after `updateOrderStatus`. -/
lemma getOrderById_updateOrderStatus (db : List OrderRow) (id : String)
    (st : OrderStatus) (tx : Option String) :
    getOrderById (updateOrderStatus db id st tx).1 id = (getOrderById db id).map
      (fun r => { r with status := st, logs := r.logs ++ [OrderLog.basic st tx] }) :=
  getOrderById_updateWhereId db id _ (fun _ => rfl)

/-- Row returned by `updateOrderRouting`. -/
lemma updateOrderRouting_snd (db : List OrderRow) (id : String) (rq mq : ℚ)
    (sel : DexProvider) :
    (updateOrderRouting db id rq mq sel).2 = (getOrderById db id).map
      (fun r => { r with status := .routing, raydiumQuote := some rq,
                         meteoraQuote := some mq, dexUsed := some sel,
                         logs := r.logs ++ [OrderLog.routingEntry rq mq sel] }) :=
  updateWhereId_snd db id _

/-- Row found after `updateOrderRouting`. -/
lemma getOrderById_updateOrderRouting (db : List OrderRow) (id : String) (rq mq : ℚ)
    (sel : DexProvider) :
    getOrderById (updateOrderRouting db id rq mq sel).1 id = (getOrderById db id).map
      (fun r => { r with status := .routing, raydiumQuote := some rq,
                         meteoraQuote := some mq, dexUsed := some sel,
                         logs := r.logs ++ [OrderLog.routingEntry rq mq sel] }) :=
  getOrderById_updateWhereId db id _ (fun _ => rfl)

/-- Row returned by `updateOrderConfirmed`. -/
lemma updateOrderConfirmed_snd (db : List OrderRow) (id : String) (tx : String)
    (ep ao : ℚ) :
    (updateOrderConfirmed db id tx ep ao).2 = (getOrderById db id).map
      (fun r => { r with status := .confirmed, txHash := some tx, amountOut := some ao,
                         logs := r.logs ++ [OrderLog.confirmedEntry tx ep] }) :=
  updateWhereId_snd db id _

/-- Row found after `updateOrderConfirmed`. -/
lemma getOrderById_updateOrderConfirmed (db : List OrderRow) (id : String)
    (tx : String) (ep ao : ℚ) :
    getOrderById (updateOrderConfirmed db id tx ep ao).1 id = (getOrderById db id).map
      (fun r => { r with status := .confirmed, txHash := some tx, amountOut := some ao,
                         logs := r.logs ++ [OrderLog.confirmedEntry tx ep] }) :=
  getOrderById_updateWhereId db id _ (fun _ => rfl)

/-- Row returned by `updateOrderFailed`. -/
lemma updateOrderFailed_snd (db : List OrderRow) (id : String) (e : ErrMsg)
    (a m : ℕ) :
    (updateOrderFailed db id e a m).2 = (getOrderById db id).map
      (fun r => { r with status := .failed, failureReason := some e,
                         logs := r.logs ++ [OrderLog.failedEntry e a m] }) :=
  updateWhereId_snd db id _

/-- Row found after `updateOrderFailed`. -/
lemma getOrderById_updateOrderFailed (db : List OrderRow) (id : String) (e : ErrMsg)
    (a m : ℕ) :
    getOrderById (updateOrderFailed db id e a m).1 id = (getOrderById db id).map
      (fun r => { r with status := .failed, failureReason := some e,
                         logs := r.logs ++ [OrderLog.failedEntry e a m] }) :=
  getOrderById_updateWhereId db id _ (fun _ => rfl)

/-! ## Worker attempt lemmas -/

/-- Characterization of an attempt whose getQuotes call throws. -/
lemma attemptBody_quotesErr (req : WorkerRequest) (env : WorkerEnv)
    (db : List OrderRow) (id : String) (r0 : OrderRow) (e : String)
    (hq : env.quotes = .error e) (hsome : getOrderById db id = some r0) :
    (attemptBody req env db id).error = some (.venue e) ∧
    getOrderById (attemptBody req env db id).db id =
      some { r0 with status := .routing,
                     logs := r0.logs ++ [OrderLog.basic .routing none] } ∧
    (attemptBody req env db id).snapshots =
      [{ r0 with status := .routing,
                 logs := r0.logs ++ [OrderLog.basic .routing none] }] := by
  simp [attemptBody, hq, updateOrderStatus_snd, getOrderById_updateOrderStatus, hsome]

/-- Characterization of an attempt whose executeSwap call throws: the
persisted row is left at building and the three snapshots keep the txHash
and failureReason columns untouched. -/
lemma attemptBody_swapErr (req : WorkerRequest) (env : WorkerEnv)
    (db : List OrderRow) (id : String) (r0 : OrderRow) (ray met : DexQuote)
    (e : String) (hq : env.quotes = .ok (ray, met)) (hsw : env.swap = .error e)
    (hsome : getOrderById db id = some r0) :
    (attemptBody req env db id).error = some (.venue e) ∧
    (∃ r3, getOrderById (attemptBody req env db id).db id = some r3 ∧
      r3.status = .building ∧ r3.txHash = r0.txHash ∧
      r3.failureReason = r0.failureReason) ∧
    (∀ r ∈ (attemptBody req env db id).snapshots,
      r.txHash = r0.txHash ∧ r.failureReason = r0.failureReason ∧
      r.status ≠ .confirmed ∧ r.status ≠ .failed) := by
  refine ⟨?_, ?_, ?_⟩ <;>
    simp [attemptBody, hq, hsw, updateOrderStatus_snd, getOrderById_updateOrderStatus,
      updateOrderRouting_snd, getOrderById_updateOrderRouting, hsome]

/-- Characterization of an attempt whose slippage check fails: the error
carries the actual slippage and the client tolerance, the persisted row is
left at building, and no txHash or failureReason column is written. -/
lemma attemptBody_slippageFail (req : WorkerRequest) (env : WorkerEnv)
    (db : List OrderRow) (id : String) (r0 : OrderRow) (ray met : DexQuote)
    (sw : SwapResult) (hq : env.quotes = .ok (ray, met)) (hsw : env.swap = .ok sw)
    (hslip : (checkSlippage
        (if selectBestDex ray met = .raydium then ray.price else met.price)
        sw.executedPrice req.slippage).1 = false)
    (hsome : getOrderById db id = some r0) :
    (attemptBody req env db id).error = some (.slippageExceeded
      (checkSlippage
        (if selectBestDex ray met = .raydium then ray.price else met.price)
        sw.executedPrice req.slippage).2 req.slippage) ∧
    (∃ r3, getOrderById (attemptBody req env db id).db id = some r3 ∧
      r3.status = .building ∧ r3.txHash = r0.txHash ∧
      r3.failureReason = r0.failureReason) ∧
    (∀ r ∈ (attemptBody req env db id).snapshots,
      r.txHash = r0.txHash ∧ r.failureReason = r0.failureReason ∧
      r.status ≠ .confirmed ∧ r.status ≠ .failed) := by
  refine ⟨?_, ?_, ?_⟩ <;>
    simp [attemptBody, hq, hsw, hslip, updateOrderStatus_snd,
      getOrderById_updateOrderStatus, updateOrderRouting_snd,
      getOrderById_updateOrderRouting, hsome]

/-- Characterization of a successful attempt: the snapshots carry the
txHash column only on the confirmed row — the submitted snapshot keeps
the prior txHash column (the hash goes only into its log entry) — and
the failureReason column is never written. -/
lemma attemptBody_success (req : WorkerRequest) (env : WorkerEnv)
    (db : List OrderRow) (id : String) (r0 : OrderRow) (ray met : DexQuote)
    (sw : SwapResult) (hq : env.quotes = .ok (ray, met)) (hsw : env.swap = .ok sw)
    (hslip : (checkSlippage
        (if selectBestDex ray met = .raydium then ray.price else met.price)
        sw.executedPrice req.slippage).1 = true)
    (hsome : getOrderById db id = some r0) :
    (attemptBody req env db id).error = none ∧
    (∀ r ∈ (attemptBody req env db id).snapshots,
      (r.status = .confirmed ∧ r.txHash = some sw.txHash ∧
        r.failureReason = r0.failureReason) ∨
      (r.txHash = r0.txHash ∧ r.failureReason = r0.failureReason ∧
        r.status ≠ .confirmed ∧ r.status ≠ .failed)) ∧
    (∃ r ∈ (attemptBody req env db id).snapshots,
      r.status = .submitted ∧ r.txHash = r0.txHash) ∧
    (∃ rc, getOrderById (attemptBody req env db id).db id = some rc ∧
      rc.status = .confirmed ∧ rc.txHash = some sw.txHash ∧
      rc.failureReason = r0.failureReason) := by
  refine ⟨?_, ?_, ?_, ?_⟩ <;>
    simp [attemptBody, hq, hsw, hslip, updateOrderStatus_snd,
      getOrderById_updateOrderStatus, updateOrderRouting_snd,
      getOrderById_updateOrderRouting, updateOrderConfirmed_snd,
      getOrderById_updateOrderConfirmed, hsome]

/-- The error an attempt throws does not depend on the database state. -/
lemma attemptBody_error_const (req : WorkerRequest) (env : WorkerEnv)
    (db : List OrderRow) (id : String) :
    (attemptBody req env db id).error = attemptError req env := by
  cases hq : env.quotes with
  | error e => simp [attemptError, attemptBody, hq]
  | ok q =>
    obtain ⟨ray, met⟩ := q
    cases hsw : env.swap with
    | error e => simp [attemptError, attemptBody, hq, hsw]
    | ok sw =>
      by_cases hs : (checkSlippage
          (if selectBestDex ray met = .raydium then ray.price else met.price)
          sw.executedPrice req.slippage).1 = true
      · simp [attemptError, attemptBody, hq, hsw, hs]
      · simp only [Bool.not_eq_true] at hs
        simp [attemptError, attemptBody, hq, hsw, hs]

/-- The error re-thrown by processOrder is the attempt's error. -/
lemma processOrder_error_eq (req : WorkerRequest) (env : WorkerEnv)
    (db : List OrderRow) (id : String) (k m : ℕ) :
    (processOrder req env db id k m).error = attemptError req env := by
  have hc := attemptBody_error_const req env db id
  cases h : (attemptBody req env db id).error with
  | none => rw [h] at hc; simp [processOrder, h, ← hc]
  | some e =>
    rw [h] at hc
    by_cases hk : m ≤ k + 1 <;> simp [processOrder, h, hk, ← hc]

/-- A failing attempt with attempts remaining: the database is left as the
attempt left it, a retry event is published and the error is re-thrown so
that the queue schedules the retry. -/
lemma processOrder_retry (req : WorkerRequest) (env : WorkerEnv) (db : List OrderRow)
    (id : String) (k m : ℕ) (e : ErrMsg) (hfail : attemptError req env = some e)
    (hlt : ¬ m ≤ k + 1) :
    processOrder req env db id k m =
      ⟨(attemptBody req env db id).db,
       (attemptBody req env db id).events ++ [BusEvent.retryEv e (k + 1) m (2 ^ (k + 1) * 1000)],
       (attemptBody req env db id).snapshots, some e⟩ := by
  have hc := attemptBody_error_const req env db id
  rw [hfail] at hc
  simp [processOrder, hc, hlt]

/-- A failing attempt with no attempts remaining: the order is persisted
failed and a FAILED event is published. -/
lemma processOrder_final (req : WorkerRequest) (env : WorkerEnv) (db : List OrderRow)
    (id : String) (k m : ℕ) (e : ErrMsg) (hfail : attemptError req env = some e)
    (hge : m ≤ k + 1) :
    processOrder req env db id k m =
      ⟨(updateOrderFailed (attemptBody req env db id).db id e (k + 1) m).1,
       (attemptBody req env db id).events ++ [BusEvent.failedEv e (k + 1) m],
       (attemptBody req env db id).snapshots ++
         (updateOrderFailed (attemptBody req env db id).db id e (k + 1) m).2.toList,
       some e⟩ := by
  have hc := attemptBody_error_const req env db id
  rw [hfail] at hc
  simp [processOrder, hc, hge]

/-- A successful attempt is returned unchanged by the catch clause. -/
lemma processOrder_ok (req : WorkerRequest) (env : WorkerEnv) (db : List OrderRow)
    (id : String) (k m : ℕ) (hok : attemptError req env = none) :
    processOrder req env db id k m = attemptBody req env db id := by
  have hc := attemptBody_error_const req env db id
  rw [hok] at hc
  simp [processOrder, hc]

/-! ## C2 — repository status updates are unconditional -/

/-- C2 counterexample: a row in the terminal status confirmed is updated
to pending — a transition with no edge in the lifecycle DAG — and the row
does not stay unchanged: `updateOrderStatus` has no condition on the
current status. -/
theorem C2_counterexample :
    validTransition .confirmed .pending = false ∧
    ((updateOrderStatus
        [⟨"o1", .confirmed, "SOL", "USDC", 0, 0, none, none, none, none, none, none, []⟩]
        "o1" .pending none).2).map OrderRow.status = some .pending ∧
    (getOrderById (updateOrderStatus
        [⟨"o1", .confirmed, "SOL", "USDC", 0, 0, none, none, none, none, none, none, []⟩]
        "o1" .pending none).1 "o1").map OrderRow.status ≠ some .confirmed := by
  refine ⟨rfl, ?_, ?_⟩ <;>
    simp [updateOrderStatus_snd, getOrderById_updateOrderStatus, getOrderById, List.find?]

/-- C2 amended: the repository applies any requested status transition
unconditionally — the UPDATE is keyed on the id only, so whatever the
current status, the row receives the requested status and the appended
log entry; the lifecycle DAG is not enforced by the repository (a request
for a non-edge transition changes the row all the same), and a missing id
leaves the table unchanged. -/
theorem C2_unconditional_update (db : List OrderRow) (id : String)
    (st : OrderStatus) (tx : Option String) :
    (∀ r0, getOrderById db id = some r0 →
      (updateOrderStatus db id st tx).2 =
        some { r0 with status := st, logs := r0.logs ++ [OrderLog.basic st tx] } ∧
      getOrderById (updateOrderStatus db id st tx).1 id =
        some { r0 with status := st, logs := r0.logs ++ [OrderLog.basic st tx] }) ∧
    (getOrderById db id = none → updateOrderStatus db id st tx = (db, none)) := by
  constructor
  · intro r0 h
    simp [updateOrderStatus_snd, getOrderById_updateOrderStatus, h]
  · intro h
    exact updateWhereId_not_found db id _ h

/-- Witness for C2 at a concrete confirmed row and a concrete pending
request. -/
theorem C2_unconditional_update_witness :
    getOrderById
      [⟨"w2", .confirmed, "A", "B", 0, 0, none, none, none, none, none, none, []⟩]
      "w2" = some ⟨"w2", .confirmed, "A", "B", 0, 0, none, none, none, none, none, none, []⟩ ∧
    (updateOrderStatus
      [⟨"w2", .confirmed, "A", "B", 0, 0, none, none, none, none, none, none, []⟩]
      "w2" .pending none).2 =
      some ⟨"w2", .pending, "A", "B", 0, 0, none, none, none, none, none, none,
        [OrderLog.basic .pending none]⟩ := by
  have h : getOrderById
      [(⟨"w2", .confirmed, "A", "B", 0, 0, none, none, none, none, none, none, []⟩ : OrderRow)]
      "w2" = some ⟨"w2", .confirmed, "A", "B", 0, 0, none, none, none, none, none, none, []⟩ := by
    simp [getOrderById, List.find?]
  refine ⟨h, ?_⟩
  have h2 := ((C2_unconditional_update
    [⟨"w2", .confirmed, "A", "B", 0, 0, none, none, none, none, none, none, []⟩]
    "w2" .pending none).1 _ h).1
  rw [h2]
  simp

/-- A failing attempt leaves the txHash and failureReason columns of the
order untouched and never persists confirmed or failed itself; the row is
still present afterwards. -/
lemma attemptBody_fail_char (req : WorkerRequest) (env : WorkerEnv)
    (db : List OrderRow) (id : String) (r0 : OrderRow) (e : ErrMsg)
    (hsome : getOrderById db id = some r0) (hfail : attemptError req env = some e) :
    (attemptBody req env db id).error = some e ∧
    (∃ r1, getOrderById (attemptBody req env db id).db id = some r1 ∧
      r1.txHash = r0.txHash ∧ r1.failureReason = r0.failureReason) ∧
    (∀ r ∈ (attemptBody req env db id).snapshots,
      r.txHash = r0.txHash ∧ r.failureReason = r0.failureReason ∧
      r.status ≠ .confirmed ∧ r.status ≠ .failed) := by
  have hc := attemptBody_error_const req env db id
  rw [hfail] at hc
  refine ⟨hc, ?_⟩
  cases hq : env.quotes with
  | error e0 =>
    obtain ⟨h1, h2, h3⟩ := attemptBody_quotesErr req env db id r0 e0 hq hsome
    refine ⟨⟨_, h2, by simp, by simp⟩, ?_⟩
    rw [h3]
    intro r hr
    simp only [List.mem_singleton] at hr
    subst hr
    simp
  | ok q =>
    obtain ⟨ray, met⟩ := q
    cases hsw : env.swap with
    | error e0 =>
      obtain ⟨h1, ⟨r3, hr3, hst, htx, hfr⟩, hsnap⟩ :=
        attemptBody_swapErr req env db id r0 ray met e0 hq hsw hsome
      exact ⟨⟨r3, hr3, htx, hfr⟩, hsnap⟩
    | ok sw =>
      by_cases hs : (checkSlippage
          (if selectBestDex ray met = .raydium then ray.price else met.price)
          sw.executedPrice req.slippage).1 = true
      · obtain ⟨h1, _⟩ :=
          attemptBody_success req env db id r0 ray met sw hq hsw hs hsome
        rw [h1] at hc
        exact absurd hc (by simp)
      · simp only [Bool.not_eq_true] at hs
        obtain ⟨h1, ⟨r3, hr3, hst, htx, hfr⟩, hsnap⟩ :=
          attemptBody_slippageFail req env db id r0 ray met sw hq hsw hs hsome
        exact ⟨⟨r3, hr3, htx, hfr⟩, hsnap⟩

/-- Inversion of a slippage-exceeded attempt error: the venue calls both
succeeded and the slippage check failed with the recorded actual value. -/
lemma attemptError_slippage_inversion (req : WorkerRequest) (env : WorkerEnv)
    (a m : ℚ) (hfail : attemptError req env = some (.slippageExceeded a m)) :
    ∃ ray met sw, env.quotes = .ok (ray, met) ∧ env.swap = .ok sw ∧
      (checkSlippage
        (if selectBestDex ray met = .raydium then ray.price else met.price)
        sw.executedPrice req.slippage).1 = false ∧
      a = (checkSlippage
        (if selectBestDex ray met = .raydium then ray.price else met.price)
        sw.executedPrice req.slippage).2 ∧
      m = req.slippage := by
  cases hq : env.quotes with
  | error e0 => simp [attemptError, attemptBody, hq] at hfail
  | ok q =>
    obtain ⟨ray, met⟩ := q
    cases hsw : env.swap with
    | error e0 => simp [attemptError, attemptBody, hq, hsw] at hfail
    | ok sw =>
      by_cases hs : (checkSlippage
          (if selectBestDex ray met = .raydium then ray.price else met.price)
          sw.executedPrice req.slippage).1 = true
      · simp [attemptError, attemptBody, hq, hsw, hs] at hfail
      · simp only [Bool.not_eq_true] at hs
        refine ⟨ray, met, sw, rfl, rfl, hs, ?_⟩
        simp [attemptError, attemptBody, hq, hsw, hs] at hfail
        exact ⟨hfail.1.symm, hfail.2.symm⟩

/-- One failing iteration of the BullMQ retry loop with attempts left. -/
lemma runJobAux_step_fail_retry (req : WorkerRequest) (env : WorkerEnv) (id : String)
    (maxR fuel f k : ℕ) (db : List OrderRow) (evs : List BusEvent)
    (snaps : List OrderRow) (ds : List ℕ) (e : ErrMsg) (hfu : fuel = f + 1)
    (hfail : attemptError req env = some e) (hlt : ¬ maxR ≤ k + 1) :
    runJobAux req env id maxR fuel k db evs snaps ds =
      runJobAux req env id maxR f (k + 1) (attemptBody req env db id).db
        (evs ++ ((attemptBody req env db id).events ++
          [BusEvent.retryEv e (k + 1) maxR (2 ^ (k + 1) * 1000)]))
        (snaps ++ (attemptBody req env db id).snapshots)
        (ds ++ [2 ^ (k + 1) * 1000]) := by
  subst hfu
  rw [runJobAux, processOrder_retry req env db id k maxR e hfail hlt]
  simp [hlt]

/-- The last failing iteration of the BullMQ retry loop. -/
lemma runJobAux_step_fail_final (req : WorkerRequest) (env : WorkerEnv) (id : String)
    (maxR fuel f k : ℕ) (db : List OrderRow) (evs : List BusEvent)
    (snaps : List OrderRow) (ds : List ℕ) (e : ErrMsg) (hfu : fuel = f + 1)
    (hfail : attemptError req env = some e) (hge : maxR ≤ k + 1) :
    runJobAux req env id maxR fuel k db evs snaps ds =
      ⟨(updateOrderFailed (attemptBody req env db id).db id e (k + 1) maxR).1,
       evs ++ ((attemptBody req env db id).events ++ [BusEvent.failedEv e (k + 1) maxR]),
       snaps ++ ((attemptBody req env db id).snapshots ++
         (updateOrderFailed (attemptBody req env db id).db id e (k + 1) maxR).2.toList),
       k + 1, ds, some e⟩ := by
  subst hfu
  rw [runJobAux, processOrder_final req env db id k maxR e hfail hge]
  simp [hge]

/-- A successful iteration ends the loop. -/
lemma runJobAux_step_ok (req : WorkerRequest) (env : WorkerEnv) (id : String)
    (maxR fuel f k : ℕ) (db : List OrderRow) (evs : List BusEvent)
    (snaps : List OrderRow) (ds : List ℕ) (hfu : fuel = f + 1)
    (hok : attemptError req env = none) :
    runJobAux req env id maxR fuel k db evs snaps ds =
      ⟨(attemptBody req env db id).db, evs ++ (attemptBody req env db id).events,
       snaps ++ (attemptBody req env db id).snapshots, k + 1, ds, none⟩ := by
  subst hfu
  rw [runJobAux, processOrder_ok req env db id k maxR hok]
  have hc := attemptBody_error_const req env db id
  rw [hok] at hc
  simp [hc]

/-- Full characterization of a job whose every attempt fails, under the
production configuration MAX_RETRIES = 3: exactly three attempts, backoff
delays of 2000 ms and 4000 ms between consecutive attempts, and a final
database row in status failed carrying the last error. -/
lemma runJob_three_attempts (req : WorkerRequest) (env : WorkerEnv)
    (db : List OrderRow) (id : String) (e : ErrMsg) (r0 : OrderRow)
    (hfail : attemptError req env = some e) (hsome : getOrderById db id = some r0) :
    (runJob req env db id 3).attemptsUsed = 3 ∧
    (runJob req env db id 3).delays = [2000, 4000] ∧
    (runJob req env db id 3).finalError = some e ∧
    ∃ r, getOrderById (runJob req env db id 3).db id = some r ∧
      r.status = .failed ∧ r.failureReason = some e := by
  obtain ⟨_, ⟨r1, hr1, _, _⟩, _⟩ := attemptBody_fail_char req env db id r0 e hsome hfail
  obtain ⟨_, ⟨r2, hr2, _, _⟩, _⟩ :=
    attemptBody_fail_char req env (attemptBody req env db id).db id r1 e hr1 hfail
  obtain ⟨_, ⟨r3, hr3, _, _⟩, _⟩ :=
    attemptBody_fail_char req env
      (attemptBody req env (attemptBody req env db id).db id).db id r2 e hr2 hfail
  rw [runJob,
    runJobAux_step_fail_retry req env id 3 3 2 0 db [] [] [] e rfl hfail (by omega),
    runJobAux_step_fail_retry req env id 3 2 1 1 _ _ _ _ e rfl hfail (by omega),
    runJobAux_step_fail_final req env id 3 1 0 2 _ _ _ _ e rfl hfail (by omega)]
  refine ⟨rfl, by norm_num, rfl, ?_⟩
  rw [getOrderById_updateOrderFailed, hr3]
  exact ⟨_, rfl, rfl, rfl⟩

/-! ## C3 — slippage violations are retried -/

/-- C3 amended: a slippage violation is not classified non-retriable — the
worker throws a generic error carrying the slippage template, and the
catch clause treats it like any other failure: only when no attempts
remain (MAX_RETRIES = 3, attemptsMade + 1 >= 3) is status=failed
persisted with the slippage reason; on earlier attempts the row stays at
building, a retry event is published, and the error is re-thrown so the
queue schedules a retry. -/
theorem C3_slippage_retried (req : WorkerRequest) (env : WorkerEnv)
    (db : List OrderRow) (id : String) (r0 : OrderRow) (a m : ℚ) (k : ℕ)
    (hfail : attemptError req env = some (.slippageExceeded a m))
    (hsome : getOrderById db id = some r0) :
    ErrMsg.mentionsSlippage (.slippageExceeded a m) = true ∧
    (3 ≤ k + 1 → ∃ r, getOrderById (processOrder req env db id k 3).db id = some r ∧
      r.status = .failed ∧ r.failureReason = some (.slippageExceeded a m)) ∧
    (k + 1 < 3 →
      (∃ r, getOrderById (processOrder req env db id k 3).db id = some r ∧
        r.status = .building) ∧
      (processOrder req env db id k 3).events.getLast? =
        some (BusEvent.retryEv (.slippageExceeded a m) (k + 1) 3 (2 ^ (k + 1) * 1000)) ∧
      (processOrder req env db id k 3).error = some (.slippageExceeded a m)) := by
  refine ⟨rfl, ?_, ?_⟩
  · intro hge
    obtain ⟨_, ⟨r1, hr1, _, _⟩, _⟩ :=
      attemptBody_fail_char req env db id r0 _ hsome hfail
    rw [processOrder_final req env db id k 3 _ hfail hge]
    show ∃ r, getOrderById (updateOrderFailed (attemptBody req env db id).db id
      (.slippageExceeded a m) (k + 1) 3).1 id = some r ∧
      r.status = .failed ∧ r.failureReason = some (.slippageExceeded a m)
    rw [getOrderById_updateOrderFailed, hr1]
    exact ⟨_, rfl, rfl, rfl⟩
  · intro hlt
    obtain ⟨ray, met, sw, hq, hsw, hs, ha, hm⟩ :=
      attemptError_slippage_inversion req env a m hfail
    obtain ⟨_, ⟨r3, hr3, hst, _, _⟩, _⟩ :=
      attemptBody_slippageFail req env db id r0 ray met sw hq hsw hs hsome
    rw [processOrder_retry req env db id k 3 _ hfail (by omega)]
    exact ⟨⟨r3, hr3, hst⟩, by simp [List.getLast?_concat], rfl⟩

/-- Witness for C3 at a concrete slippage violation: expected price 100,
executed price 90, tolerance 0.001, exercised both on a non-final attempt
(attemptsMade = 0: retried) and on the final attempt (attemptsMade = 2:
persisted failed with the slippage reason). -/
theorem C3_slippage_retried_witness :
    (∃ r, getOrderById (processOrder ⟨"SOL", "USDC", 1, 1/1000⟩
        ⟨.ok (⟨100, 0⟩, ⟨90, 0⟩), .ok ⟨"tx1", 90⟩⟩
        (createOrder [] "o1" ⟨"SOL", "USDC", 1, 1/1000⟩).1 "o1" 0 3).db "o1" = some r ∧
      r.status = .building) ∧
    (∃ r, getOrderById (processOrder ⟨"SOL", "USDC", 1, 1/1000⟩
        ⟨.ok (⟨100, 0⟩, ⟨90, 0⟩), .ok ⟨"tx1", 90⟩⟩
        (createOrder [] "o1" ⟨"SOL", "USDC", 1, 1/1000⟩).1 "o1" 2 3).db "o1" = some r ∧
      r.status = .failed ∧
      r.failureReason = some (.slippageExceeded (1/10) (1/1000))) := by
  have hsel : selectBestDex ⟨100, 0⟩ ⟨90, 0⟩ = .raydium := by
    norm_num [selectBestDex, effectivePrice]
  have hchk : checkSlippage 100 90 ((1000 : ℚ)⁻¹) = (false, (10 : ℚ)⁻¹) := by
    simp [checkSlippage, Prod.ext_iff, decide_eq_false_iff_not]
    norm_num
  have hfail : attemptError ⟨"SOL", "USDC", 1, 1/1000⟩
      ⟨.ok (⟨100, 0⟩, ⟨90, 0⟩), .ok ⟨"tx1", 90⟩⟩ =
      some (.slippageExceeded (1/10) (1/1000)) := by
    simp [attemptError, attemptBody, hsel, hchk]
  have hsome : getOrderById (createOrder [] "o1" ⟨"SOL", "USDC", 1, 1/1000⟩).1 "o1" =
      some (createOrder [] "o1" ⟨"SOL", "USDC", 1, 1/1000⟩).2 := by
    simp [createOrder, getOrderById]
  refine ⟨?_, ?_⟩
  · exact ((C3_slippage_retried _ _ _ "o1" _ (1/10) (1/1000) 0 hfail hsome).2.2
      (by omega)).1
  · exact (C3_slippage_retried _ _ _ "o1" _ (1/10) (1/1000) 2 hfail hsome).2.1
      (by omega)

/-- C3 counterexample: at the same slippage violation on the first
attempt (attemptsMade = 0, MAX_RETRIES = 3), the worker does not persist
status=failed — the row stays at building with no failureReason — and a
retry is published and the error re-thrown, so a retry of the job is
scheduled. -/
theorem C3_counterexample :
    ((getOrderById (processOrder ⟨"SOL", "USDC", 1, 1/1000⟩
        ⟨.ok (⟨100, 0⟩, ⟨90, 0⟩), .ok ⟨"tx1", 90⟩⟩
        (createOrder [] "o1" ⟨"SOL", "USDC", 1, 1/1000⟩).1 "o1" 0 3).db "o1").map
      OrderRow.status = some .building) ∧
    ((getOrderById (processOrder ⟨"SOL", "USDC", 1, 1/1000⟩
        ⟨.ok (⟨100, 0⟩, ⟨90, 0⟩), .ok ⟨"tx1", 90⟩⟩
        (createOrder [] "o1" ⟨"SOL", "USDC", 1, 1/1000⟩).1 "o1" 0 3).db "o1").map
      OrderRow.status ≠ some .failed) ∧
    (processOrder ⟨"SOL", "USDC", 1, 1/1000⟩
        ⟨.ok (⟨100, 0⟩, ⟨90, 0⟩), .ok ⟨"tx1", 90⟩⟩
        (createOrder [] "o1" ⟨"SOL", "USDC", 1, 1/1000⟩).1 "o1" 0 3).events.getLast? =
      some (BusEvent.retryEv (.slippageExceeded (1/10) (1/1000)) 1 3 2000) ∧
    (processOrder ⟨"SOL", "USDC", 1, 1/1000⟩
        ⟨.ok (⟨100, 0⟩, ⟨90, 0⟩), .ok ⟨"tx1", 90⟩⟩
        (createOrder [] "o1" ⟨"SOL", "USDC", 1, 1/1000⟩).1 "o1" 0 3).error =
      some (.slippageExceeded (1/10) (1/1000)) := by
  have hsel : selectBestDex ⟨100, 0⟩ ⟨90, 0⟩ = .raydium := by
    norm_num [selectBestDex, effectivePrice]
  have hchk : checkSlippage 100 90 ((1000 : ℚ)⁻¹) = (false, (10 : ℚ)⁻¹) := by
    simp [checkSlippage, Prod.ext_iff, decide_eq_false_iff_not]
    norm_num
  have hfail : attemptError ⟨"SOL", "USDC", 1, 1/1000⟩
      ⟨.ok (⟨100, 0⟩, ⟨90, 0⟩), .ok ⟨"tx1", 90⟩⟩ =
      some (.slippageExceeded (1/10) (1/1000)) := by
    simp [attemptError, attemptBody, hsel, hchk]
  have hsome : getOrderById (createOrder [] "o1" ⟨"SOL", "USDC", 1, 1/1000⟩).1 "o1" =
      some (createOrder [] "o1" ⟨"SOL", "USDC", 1, 1/1000⟩).2 := by
    simp [createOrder, getOrderById]
  obtain ⟨ray, met, sw, hq, hsw, hs, ha, hm⟩ :=
    attemptError_slippage_inversion _ _ (1/10) (1/1000) hfail
  obtain ⟨_, ⟨r3, hr3, hst, _, _⟩, _⟩ :=
    attemptBody_slippageFail _ _ _ "o1" _ ray met sw hq hsw hs hsome
  rw [processOrder_retry _ _ _ "o1" 0 3 _ hfail (by omega)]
  refine ⟨?_, ?_, ?_, rfl⟩
  · show (getOrderById (attemptBody _ _ _ "o1").db "o1").map OrderRow.status = _
    rw [hr3]
    simp [hst]
  · show (getOrderById (attemptBody _ _ _ "o1").db "o1").map OrderRow.status ≠ _
    rw [hr3]
    simp [hst]
  · simp [List.getLast?_concat]

/-! ## C4 — bounded retries and backoff -/

/-- C4 amended: a job whose every attempt fails is attempted exactly
MAX_RETRIES = 3 times, with exponential backoff delays of 2s and 4s
between consecutive attempts (three attempts have two gaps; no 8s delay
ever occurs), after which the persisted status is failed with
failureReason reflecting the last error. -/
theorem C4_bounded_retries (req : WorkerRequest) (env : WorkerEnv)
    (db : List OrderRow) (id : String) (e : ErrMsg) (r0 : OrderRow)
    (hfail : attemptError req env = some e) (hsome : getOrderById db id = some r0) :
    (runJob req env db id 3).attemptsUsed = 3 ∧
    (runJob req env db id 3).delays = [2000, 4000] ∧
    (runJob req env db id 3).finalError = some e ∧
    ∃ r, getOrderById (runJob req env db id 3).db id = some r ∧
      r.status = .failed ∧ r.failureReason = some e :=
  runJob_three_attempts req env db id e r0 hfail hsome

/-- Witness for C4 at a venue that always throws. -/
theorem C4_bounded_retries_witness :
    (runJob ⟨"SOL", "USDC", 1, 1/100⟩ ⟨.error "venue down", .error "x"⟩
      (createOrder [] "o1" ⟨"SOL", "USDC", 1, 1/100⟩).1 "o1" 3).attemptsUsed = 3 ∧
    (runJob ⟨"SOL", "USDC", 1, 1/100⟩ ⟨.error "venue down", .error "x"⟩
      (createOrder [] "o1" ⟨"SOL", "USDC", 1, 1/100⟩).1 "o1" 3).delays = [2000, 4000] ∧
    (runJob ⟨"SOL", "USDC", 1, 1/100⟩ ⟨.error "venue down", .error "x"⟩
      (createOrder [] "o1" ⟨"SOL", "USDC", 1, 1/100⟩).1 "o1" 3).finalError =
      some (.venue "venue down") ∧
    ∃ r, getOrderById (runJob ⟨"SOL", "USDC", 1, 1/100⟩
        ⟨.error "venue down", .error "x"⟩
        (createOrder [] "o1" ⟨"SOL", "USDC", 1, 1/100⟩).1 "o1" 3).db "o1" = some r ∧
      r.status = .failed ∧ r.failureReason = some (.venue "venue down") := by
  have hfail : attemptError ⟨"SOL", "USDC", 1, 1/100⟩
      ⟨.error "venue down", .error "x"⟩ = some (.venue "venue down") := by
    simp [attemptError, attemptBody]
  have hsome : getOrderById (createOrder [] "o1" ⟨"SOL", "USDC", 1, 1/100⟩).1 "o1" =
      some (createOrder [] "o1" ⟨"SOL", "USDC", 1, 1/100⟩).2 := by
    simp [createOrder, getOrderById]
  exact C4_bounded_retries _ _ _ "o1" _ _ hfail hsome

/-- C4 counterexample: for the always-failing venue the inter-attempt
delays are [2000 ms, 4000 ms] — not the claimed three delays of 2s, 4s
and 8s — even though exactly 3 attempts are made. -/
theorem C4_counterexample :
    (runJob ⟨"SOL", "USDC", 1, 1/100⟩ ⟨.error "venue down", .error "x"⟩
      (createOrder [] "o1" ⟨"SOL", "USDC", 1, 1/100⟩).1 "o1" 3).delays = [2000, 4000] ∧
    (runJob ⟨"SOL", "USDC", 1, 1/100⟩ ⟨.error "venue down", .error "x"⟩
      (createOrder [] "o1" ⟨"SOL", "USDC", 1, 1/100⟩).1 "o1" 3).delays ≠
      [2000, 4000, 8000] ∧
    (runJob ⟨"SOL", "USDC", 1, 1/100⟩ ⟨.error "venue down", .error "x"⟩
      (createOrder [] "o1" ⟨"SOL", "USDC", 1, 1/100⟩).1 "o1" 3).attemptsUsed = 3 := by
  have hfail : attemptError ⟨"SOL", "USDC", 1, 1/100⟩
      ⟨.error "venue down", .error "x"⟩ = some (.venue "venue down") := by
    simp [attemptError, attemptBody]
  have hsome : getOrderById (createOrder [] "o1" ⟨"SOL", "USDC", 1, 1/100⟩).1 "o1" =
      some (createOrder [] "o1" ⟨"SOL", "USDC", 1, 1/100⟩).2 := by
    simp [createOrder, getOrderById]
  obtain ⟨ha, hd, _, _⟩ := runJob_three_attempts _ _ _ "o1" _ _ hfail hsome
  refine ⟨hd, ?_, ha⟩
  rw [hd]
  decide

/-- Inversion of a successful attempt: both venue calls succeeded and the
slippage check passed. -/
lemma attemptError_none_inversion (req : WorkerRequest) (env : WorkerEnv)
    (hok : attemptError req env = none) :
    ∃ ray met sw, env.quotes = .ok (ray, met) ∧ env.swap = .ok sw ∧
      (checkSlippage
        (if selectBestDex ray met = .raydium then ray.price else met.price)
        sw.executedPrice req.slippage).1 = true := by
  cases hq : env.quotes with
  | error e0 => simp [attemptError, attemptBody, hq] at hok
  | ok q =>
    obtain ⟨ray, met⟩ := q
    cases hsw : env.swap with
    | error e0 => simp [attemptError, attemptBody, hq, hsw] at hok
    | ok sw =>
      by_cases hs : (checkSlippage
          (if selectBestDex ray met = .raydium then ray.price else met.price)
          sw.executedPrice req.slippage).1 = true
      · exact ⟨ray, met, sw, rfl, rfl, hs⟩
      · simp only [Bool.not_eq_true] at hs
        simp [attemptError, attemptBody, hq, hsw, hs] at hok

/-- Along any run of the retry loop started on a row whose txHash and
failureReason columns are empty, every persisted row snapshot satisfies:
the txHash column is set iff the status is confirmed, and the
failureReason column is set iff the status is failed. -/
lemma runJobAux_snapshots_inv (req : WorkerRequest) (env : WorkerEnv) (id : String)
    (maxR : ℕ) :
    ∀ (fuel k : ℕ) (db : List OrderRow) (evs : List BusEvent)
      (snaps : List OrderRow) (ds : List ℕ) (r0 : OrderRow),
      getOrderById db id = some r0 → r0.txHash = none → r0.failureReason = none →
      (∀ r ∈ snaps,
        (r.txHash.isSome = true ↔ r.status = .confirmed) ∧
        (r.failureReason.isSome = true ↔ r.status = .failed)) →
      ∀ r ∈ (runJobAux req env id maxR fuel k db evs snaps ds).snapshots,
        (r.txHash.isSome = true ↔ r.status = .confirmed) ∧
        (r.failureReason.isSome = true ↔ r.status = .failed) := by
  intro fuel
  induction fuel with
  | zero =>
    intro k db evs snaps ds r0 hsome htx hfr hsnaps
    simpa [runJobAux] using hsnaps
  | succ fuel ih =>
    intro k db evs snaps ds r0 hsome htx hfr hsnaps
    cases herr : attemptError req env with
    | none =>
      rw [runJobAux_step_ok req env id maxR (fuel + 1) fuel k db evs snaps ds rfl herr]
      intro r hr
      simp only [List.mem_append] at hr
      rcases hr with hr | hr
      · exact hsnaps r hr
      · obtain ⟨ray, met, sw, hq, hsw, hs⟩ := attemptError_none_inversion req env herr
        obtain ⟨_, hall, _, _⟩ :=
          attemptBody_success req env db id r0 ray met sw hq hsw hs hsome
        rcases hall r hr with ⟨hc1, hc2, hc3⟩ | ⟨h1, h2, h3, h4⟩
        · refine ⟨?_, ?_⟩ <;> simp [hc1, hc2, hc3, hfr]
        · refine ⟨?_, ?_⟩ <;> simp [h1, h2, h3, h4, htx, hfr]
    | some e =>
      obtain ⟨_, ⟨r1, hr1, htx1, hfr1⟩, hsnap⟩ :=
        attemptBody_fail_char req env db id r0 e hsome herr
      by_cases hge : maxR ≤ k + 1
      · rw [runJobAux_step_fail_final req env id maxR (fuel + 1) fuel k db evs snaps ds
          e rfl herr hge]
        intro r hr
        simp only [List.mem_append] at hr
        rcases hr with hr | hr | hr
        · exact hsnaps r hr
        · obtain ⟨h1, h2, h3, h4⟩ := hsnap r hr
          refine ⟨?_, ?_⟩ <;> simp [h1, h2, h3, h4, htx, hfr]
        · rw [updateOrderFailed_snd, hr1] at hr
          simp only [Option.map_some', Option.toList_some, List.mem_singleton] at hr
          subst hr
          refine ⟨?_, ?_⟩ <;> simp [htx1.trans htx, hfr1.trans hfr]
      · rw [runJobAux_step_fail_retry req env id maxR (fuel + 1) fuel k db evs snaps ds
          e rfl herr hge]
        apply ih (k + 1) _ _ _ _ r1 hr1 (htx1.trans htx) (hfr1.trans hfr)
        intro r hr
        simp only [List.mem_append] at hr
        rcases hr with hr | hr
        · exact hsnaps r hr
        · obtain ⟨h1, h2, h3, h4⟩ := hsnap r hr
          refine ⟨?_, ?_⟩ <;> simp [h1, h2, h3, h4, htx, hfr]

/-! ## C6 — txHash and failureReason columns -/

/-- C6 amended: in every persisted order row — the created row and every
row returned by a repository write during job processing — the txHash
column is set iff the status is confirmed, and the failureReason column
is set iff the status is failed. In particular an order in status
submitted always has an empty txHash column: the SUBMITTED update stores
the hash only inside the appended log entry, and the column is first
written by the confirmed update. -/
theorem C6_column_invariant (req : WorkerRequest) (env : WorkerEnv) (id : String)
    (maxR : ℕ) :
    ∀ r ∈ (createOrder [] id req).2 ::
        (runJob req env (createOrder [] id req).1 id maxR).snapshots,
      (r.txHash.isSome = true ↔ r.status = .confirmed) ∧
      (r.failureReason.isSome = true ↔ r.status = .failed) := by
  intro r hr
  rcases List.mem_cons.mp hr with hr | hr
  · subst hr
    simp [createOrder]
  · rw [runJob] at hr
    have hsome : getOrderById (createOrder [] id req).1 id =
        some (createOrder [] id req).2 := by
      simp [createOrder, getOrderById]
    exact runJobAux_snapshots_inv req env id maxR maxR 0 _ [] [] [] _ hsome
      (by simp [createOrder]) (by simp [createOrder]) (by simp) r hr

/-- Witness for C6 at a concrete freshly created row. -/
theorem C6_column_invariant_witness :
    ((createOrder [] "o1" ⟨"SOL", "USDC", 1, 1/100⟩).2.txHash.isSome = true ↔
      (createOrder [] "o1" ⟨"SOL", "USDC", 1, 1/100⟩).2.status = .confirmed) ∧
    ((createOrder [] "o1" ⟨"SOL", "USDC", 1, 1/100⟩).2.failureReason.isSome = true ↔
      (createOrder [] "o1" ⟨"SOL", "USDC", 1, 1/100⟩).2.status = .failed) :=
  C6_column_invariant ⟨"SOL", "USDC", 1, 1/100⟩
    ⟨.error "venue down", .error "x"⟩ "o1" 3 _ (List.mem_cons_self _ _)

/-- C6 counterexample: in a successful run there is a persisted snapshot
in status submitted whose txHash column is empty — the claim that
status submitted implies a non-null txHash column fails. -/
theorem C6_counterexample :
    ∃ r ∈ (runJob ⟨"SOL", "USDC", 1, 1/20⟩
        ⟨.ok (⟨100, 0⟩, ⟨90, 0⟩), .ok ⟨"tx0", 100⟩⟩
        (createOrder [] "o1" ⟨"SOL", "USDC", 1, 1/20⟩).1 "o1" 3).snapshots,
      r.status = .submitted ∧ r.txHash = none := by
  have hsel : selectBestDex ⟨100, 0⟩ ⟨90, 0⟩ = .raydium := by
    norm_num [selectBestDex, effectivePrice]
  have hchk : checkSlippage 100 100 ((20 : ℚ)⁻¹) = (true, 0) := by
    norm_num [checkSlippage, Prod.ext_iff, decide_eq_true_eq]
  have hs : (checkSlippage
      (if selectBestDex ⟨100, 0⟩ ⟨90, 0⟩ = DexProvider.raydium then (100 : ℚ) else 90)
      (100 : ℚ) ((1 : ℚ)/20)).1 = true := by
    simp [hsel, hchk]
  have hok : attemptError ⟨"SOL", "USDC", 1, 1/20⟩
      ⟨.ok (⟨100, 0⟩, ⟨90, 0⟩), .ok ⟨"tx0", 100⟩⟩ = none := by
    simp [attemptError, attemptBody, hsel, hchk]
  have hsome : getOrderById (createOrder [] "o1" ⟨"SOL", "USDC", 1, 1/20⟩).1 "o1" =
      some (createOrder [] "o1" ⟨"SOL", "USDC", 1, 1/20⟩).2 := by
    simp [createOrder, getOrderById]
  rw [runJob, runJobAux_step_ok _ _ "o1" 3 3 2 0 _ [] [] [] rfl hok]
  obtain ⟨_, _, ⟨rs, hmem, hst, htx⟩, _⟩ :=
    attemptBody_success ⟨"SOL", "USDC", 1, 1/20⟩
      ⟨.ok (⟨100, 0⟩, ⟨90, 0⟩), .ok ⟨"tx0", 100⟩⟩
      (createOrder [] "o1" ⟨"SOL", "USDC", 1, 1/20⟩).1 "o1"
      (createOrder [] "o1" ⟨"SOL", "USDC", 1, 1/20⟩).2
      ⟨100, 0⟩ ⟨90, 0⟩ ⟨"tx0", 100⟩ rfl rfl hs hsome
  refine ⟨rs, by simpa using hmem, hst, ?_⟩
  rw [htx]
  simp [createOrder]
